import Mathlib

/-!
Shallow embedding of the translation service in `main.py`:
the model registry (`get_model` over `_MODEL_CACHE`), the language
resolution logic, and the `/translate` request handler, together with
theorems checking the specification's claims about them.

External collaborators (the langdetect detector, the EasyNMT model,
the wall clock and the performance counter) are modelled as oracle
fields of an `Env` record; the handler itself is a pure function of
the request, the environment and the current cache state.
-/

namespace CustomTranslate

/-- Outcome of `langdetect.detect(text)`: either a language code or a
raised `LangDetectException`. -/
inductive DetectResult where
  | ok (lang : String)
  | failure
  deriving DecidableEq, Repr

/-- Outcome of `EasyNMT.translate(...)`: the translated string, or a
raised exception carrying a message. -/
inductive ModelOutcome where
  | ok (out : String)
  | error (msg : String)
  deriving DecidableEq, Repr

/-- A loaded EasyNMT model handle (`EasyNMT(model_name, device="cuda")`).
Opaque apart from the identifier it was constructed with. -/
structure ModelHandle where
  name : String
  deriving DecidableEq, Repr

/-- Which clock produced a timestamp: `datetime.now()` (naive local
time) or `datetime.now(timezone.utc)` (timezone-aware UTC). -/
inductive Clock where
  | localNaive
  | utc
  deriving DecidableEq, Repr

/-- An ISO-8601 timestamp, abstracted to the clock that produced it and
an abstract instant value. -/
structure Timestamp where
  clock : Clock
  value : Nat
  deriving DecidableEq, Repr

/-- The `_MODEL_CACHE` dictionary: model identifier to loaded handle. -/
abbrev Cache := List (String × ModelHandle)

/-- The caller-visible HTTP errors the service raises:
`HTTPException(400, ...)` for an unknown model and
`HTTPException(500, ...)` for a failed translation. -/
inductive HTTPError where
  | unknownModel (detail : String)
  | translationFailed (detail : String)
  deriving DecidableEq, Repr

/-- `TranslateRequest` pydantic model from `main.py`. -/
structure TranslateRequest where
  text : String
  source_lang : Option String := none
  target_lang : Option String := none
  model : Option String := none
  deriving DecidableEq, Repr

/-- The environment of external collaborators and clocks consumed by one
request: the detector, the model call, and the instants read from the
local clock, the UTC clock and the performance counter. -/
structure Env where
  det : String → DetectResult
  model_out : String → String → String → String → Nat → ModelOutcome
  nowLocal : Nat
  wallStart : Nat
  wallFinish : Nat
  perfStart : Nat
  perfFinish : Nat

def DEFAULT_MODEL_NAME : String := "m2m_100_418M"

def MODEL_NAMES : List String := ["m2m_100_418M", "m2m_100_1.2B"]

/-- `sorted(MODEL_NAMES)` in Python: lexicographic order of the two
identifiers (the character 1 sorts before 4). -/
def SORTED_MODEL_NAMES : List String := ["m2m_100_1.2B", "m2m_100_418M"]

/-- Detail string of the 400 error raised by `get_model`. -/
def unknownModelDetail (model_name : String) : String :=
  "Unknown model \x27" ++ model_name ++ "\x27. Available: " ++
    String.intercalate ", " SORTED_MODEL_NAMES

/-- `_MODEL_CACHE.get(model_name)`. -/
def cacheLookup (model_name : String) : Cache → Option ModelHandle
  | [] => none
  | (k, m) :: rest => if k = model_name then some m else cacheLookup model_name rest

/-- `get_model` from `main.py`, with the cache passed explicitly.
Returns the handle, the updated cache, and whether a load was performed
(`EasyNMT(model_name, device="cuda")` evaluated). -/
def get_model (model_name : String) (cache : Cache) :
    Except HTTPError (ModelHandle × Cache × Bool) :=
  if model_name ∈ MODEL_NAMES then
    match cacheLookup model_name cache with
    | some cached => .ok (cached, cache, false)
    | none =>
        let m : ModelHandle := { name := model_name }
        .ok (m, (model_name, m) :: cache, true)
  else
    .error (.unknownModel (unknownModelDetail model_name))

/-- Python `str.lower()` (ASCII case mapping, which covers language
codes and model identifiers). -/
def pyLower (s : String) : String :=
  String.mk (s.data.map Char.toLower)

/-- `req.field.lower() if req.field else None`: `None` and `""` are
falsy in Python, so both are treated as absent. -/
def pyNormLower (s : Option String) : Option String :=
  match s with
  | none => none
  | some s => if s = "" then none else some (pyLower s)

/-- Python `str.strip()`: drop leading and trailing whitespace. -/
def pyStrip (s : String) : String :=
  String.mk (((s.data.dropWhile Char.isWhitespace).reverse.dropWhile Char.isWhitespace).reverse)

/-- `(req.model or DEFAULT_MODEL_NAME).strip()`. -/
def effectiveModelName (req : TranslateRequest) : String :=
  pyStrip (match req.model with
   | none => DEFAULT_MODEL_NAME
   | some s => if s = "" then DEFAULT_MODEL_NAME else s)

/-- `(detected_lang or "en").lower()` applied to the detector outcome
(`detected_lang` stays `None` when `detect` raised). -/
def detectFallback : DetectResult → String
  | .failure => "en"
  | .ok l => if l = "" then "en" else pyLower l

/-- The effective source language the handler computes: the supplied one
lowercased when truthy, otherwise the detector outcome with the English
fallback. -/
def resolvedSource (env : Env) (req : TranslateRequest) : String :=
  match pyNormLower req.source_lang with
  | some s => s
  | none => detectFallback (env.det req.text)

/-- Result of the language-resolution section of the handler: either
proceed to the model call with resolved source and target, or return the
English passthrough response. The two booleans record whether `detect`
was called and whether the detection-failure warning was logged. -/
inductive Resolution where
  | proceed (src tgt : String) (detectCalled warned : Bool)
  | passthrough (src : String) (detectCalled warned : Bool)
  deriving DecidableEq, Repr

/-- Lines 67-112 of `main.py`: case A trusts supplied languages; case B
auto-detects the source when missing (never failing the request), then
defaults the target to English, or returns the passthrough when the
source is English and no target was given. -/
def resolveLanguages (env : Env) (req : TranslateRequest) : Resolution :=
  let source_lang0 := pyNormLower req.source_lang
  let target_lang0 := pyNormLower req.target_lang
  if source_lang0.isSome ∧ target_lang0.isSome then
    .proceed (source_lang0.getD "") (target_lang0.getD "") false false
  else
    let step :=
      match source_lang0 with
      | some s => (s, false, false)
      | none =>
        match env.det req.text with
        | .ok l => (if l = "" then "en" else pyLower l, true, false)
        | .failure => ("en", true, true)
    match target_lang0 with
    | some t => .proceed step.1 t step.2.1 step.2.2
    | none =>
      if step.1 = "en" then .passthrough step.1 step.2.1 step.2.2
      else .proceed step.1 "en" step.2.1 step.2.2

/-- Response body of a successful `/translate` call. -/
structure ResponseEnvelope where
  translation : String
  model : String
  source_lang : String
  target_lang : String
  started_at : Timestamp
  finished_at : Timestamp
  duration_seconds : Nat
  note : Option String
  deriving DecidableEq, Repr

/-- Observable side effects of one request: whether `detect` was called,
whether the detection-failure warning was logged, whether a model load
happened, the language pair passed to the model call (if any), and the
raw exception message the model raised (if any). -/
structure Trace where
  detectCalled : Bool
  warnedDetectionFailed : Bool
  loadedModel : Bool
  invokedWith : Option (String × String)
  modelError : Option String
  deriving DecidableEq, Repr

/-- Full outcome of one request: the HTTP result, the cache afterwards,
and the trace of observable effects. -/
structure HandlerOutcome where
  result : Except HTTPError ResponseEnvelope
  cache : Cache
  trace : Trace
  deriving Repr

def passthroughNote : String :=
  "Source language is English and no target_lang was provided; no translation performed."

/-- The `/translate` handler from `main.py`: resolve and lazily load the
model, resolve languages, then either return the passthrough envelope
(timestamps from the naive local clock, zero duration) or invoke the
model with `beam_size=1` (timestamps from the UTC clock, duration from
the performance counter), wrapping any model exception into a 500. -/
def translate (env : Env) (req : TranslateRequest) (cache : Cache) : HandlerOutcome :=
  let model_name := effectiveModelName req
  match get_model model_name cache with
  | .error e =>
      { result := .error e, cache := cache,
        trace := { detectCalled := false, warnedDetectionFailed := false,
                   loadedModel := false, invokedWith := none, modelError := none } }
  | .ok (chosen_model, cache1, didLoad) =>
    match resolveLanguages env req with
    | .passthrough src detectCalled warned =>
        let ts : Timestamp := { clock := .localNaive, value := env.nowLocal }
        let envl : ResponseEnvelope :=
          { translation := req.text, model := model_name,
            source_lang := src, target_lang := src,
            started_at := ts, finished_at := ts, duration_seconds := 0,
            note := some passthroughNote }
        { result := .ok envl,
          cache := cache1,
          trace := { detectCalled := detectCalled, warnedDetectionFailed := warned,
                     loadedModel := didLoad, invokedWith := none, modelError := none } }
    | .proceed src tgt detectCalled warned =>
        match env.model_out chosen_model.name req.text src tgt 1 with
        | .error e =>
            { result := .error (.translationFailed ("Translation failed: " ++ e)),
              cache := cache1,
              trace := { detectCalled := detectCalled, warnedDetectionFailed := warned,
                         loadedModel := didLoad, invokedWith := some (src, tgt),
                         modelError := some e } }
        | .ok out =>
            let envl : ResponseEnvelope :=
              { translation := out, model := model_name,
                source_lang := src, target_lang := tgt,
                started_at := { clock := .utc, value := env.wallStart },
                finished_at := { clock := .utc, value := env.wallFinish },
                duration_seconds := env.perfFinish - env.perfStart, note := none }
            { result := .ok envl,
              cache := cache1,
              trace := { detectCalled := detectCalled, warnedDetectionFailed := warned,
                         loadedModel := didLoad, invokedWith := some (src, tgt),
                         modelError := none } }

/-- The response envelope the passthrough branch of `translate` builds,
for a resolved source `src` (both language fields echo it). -/
def passthroughEnvelope (env : Env) (req : TranslateRequest) (src : String) :
    ResponseEnvelope :=
  { translation := req.text, model := effectiveModelName req,
    source_lang := src, target_lang := src,
    started_at := { clock := .localNaive, value := env.nowLocal },
    finished_at := { clock := .localNaive, value := env.nowLocal },
    duration_seconds := 0, note := some passthroughNote }

/-- The response envelope the translated branch of `translate` builds
when the model call returns `out` for the pair `src`, `tgt`. -/
def translatedEnvelope (env : Env) (req : TranslateRequest) (out src tgt : String) :
    ResponseEnvelope :=
  { translation := out, model := effectiveModelName req,
    source_lang := src, target_lang := tgt,
    started_at := { clock := .utc, value := env.wallStart },
    finished_at := { clock := .utc, value := env.wallFinish },
    duration_seconds := env.perfFinish - env.perfStart, note := none }

/-- A burst of sequential `get_model` calls for one identifier.
`get_model` contains no `await` point and runs on the single event-loop
thread, so concurrent requests execute it atomically one after another;
a burst of k concurrent first-time calls is therefore a sequence of k
atomic calls threading the cache. Returns the per-caller results, the
final cache, and the number of loads performed. -/
def get_model_seq (mid : String) : Nat → Cache → List (Except HTTPError ModelHandle) × Cache × Nat
  | 0, cache => ([], cache, 0)
  | k+1, cache =>
    match get_model mid cache with
    | .error e =>
        let r := get_model_seq mid k cache
        (.error e :: r.1, r.2.1, r.2.2)
    | .ok (m, c1, didLoad) =>
        let r := get_model_seq mid k c1
        (.ok m :: r.1, r.2.1, (if didLoad then 1 else 0) + r.2.2)

/-- Concrete environment whose detector always reports English and whose
model call always succeeds. -/
def envDetEn : Env :=
  { det := fun _ => .ok "en", model_out := fun _ _ _ _ _ => .ok "OUT",
    nowLocal := 1, wallStart := 2, wallFinish := 3, perfStart := 4, perfFinish := 9 }

/-- Concrete environment whose detector always reports French. -/
def envDetFr : Env := { envDetEn with det := fun _ => .ok "fr" }

/-- Concrete environment whose detector always raises. -/
def envDetFail : Env := { envDetEn with det := fun _ => .failure }

/-- Concrete environment whose model call always raises. -/
def envModelBoom : Env := { envDetEn with model_out := fun _ _ _ _ _ => .error "boom" }

/-! ## Theorems -/

/-- A valid identifier never makes `get_model` fail. -/
theorem get_model_valid (mid : String) (cache : Cache) (h : mid ∈ MODEL_NAMES) :
    ∃ m c1 dl, get_model mid cache = .ok (m, c1, dl) := by
  unfold get_model
  rw [if_pos h]
  cases cacheLookup mid cache <;> exact ⟨_, _, _, rfl⟩

/-- Case A of the handler: both languages supplied and non-empty means
no detection and the lowercased supplied pair is used. -/
theorem resolveLanguages_both_supplied (env : Env) (req : TranslateRequest)
    (s t : String) (hs : req.source_lang = some s) (hs' : s ≠ "")
    (ht : req.target_lang = some t) (ht' : t ≠ "") :
    resolveLanguages env req = .proceed (pyLower s) (pyLower t) false false := by
  simp [resolveLanguages, pyNormLower, hs, ht, hs', ht']

/-- Source supplied, target absent: passthrough exactly when the
lowercased source is English. -/
theorem resolveLanguages_source_only (env : Env) (req : TranslateRequest)
    (s : String) (hs : pyNormLower req.source_lang = some s)
    (ht : pyNormLower req.target_lang = none) :
    resolveLanguages env req =
      if s = "en" then .passthrough s false false
      else .proceed s "en" false false := by
  by_cases hse : s = "en" <;> simp [resolveLanguages, hs, ht, hse]

/-- Source absent and detection succeeded, target absent. -/
theorem resolveLanguages_detected_no_target (env : Env) (req : TranslateRequest)
    (l : String) (hs : pyNormLower req.source_lang = none)
    (ht : pyNormLower req.target_lang = none)
    (hd : env.det req.text = .ok l) :
    resolveLanguages env req =
      if (if l = "" then "en" else pyLower l) = "en"
      then .passthrough (if l = "" then "en" else pyLower l) true false
      else .proceed (if l = "" then "en" else pyLower l) "en" true false := by
  by_cases hle : (if l = "" then "en" else pyLower l) = "en" <;>
    simp [resolveLanguages, hs, ht, hd, hle]

/-- Source absent and detection raised, target absent: English
passthrough after the fallback, with the warning logged. -/
theorem resolveLanguages_failed_no_target (env : Env) (req : TranslateRequest)
    (hs : pyNormLower req.source_lang = none)
    (ht : pyNormLower req.target_lang = none)
    (hd : env.det req.text = .failure) :
    resolveLanguages env req = .passthrough "en" true true := by
  simp [resolveLanguages, hs, ht, hd]

/-- Source absent and detection succeeded, target supplied. -/
theorem resolveLanguages_detected_with_target (env : Env) (req : TranslateRequest)
    (l t : String) (hs : pyNormLower req.source_lang = none)
    (ht : pyNormLower req.target_lang = some t)
    (hd : env.det req.text = .ok l) :
    resolveLanguages env req =
      .proceed (if l = "" then "en" else pyLower l) t true false := by
  simp [resolveLanguages, hs, ht, hd]

/-- Source absent and detection raised, target supplied: proceed with
the English fallback source. -/
theorem resolveLanguages_failed_with_target (env : Env) (req : TranslateRequest)
    (t : String) (hs : pyNormLower req.source_lang = none)
    (ht : pyNormLower req.target_lang = some t)
    (hd : env.det req.text = .failure) :
    resolveLanguages env req = .proceed "en" t true true := by
  simp [resolveLanguages, hs, ht, hd]

/-- C5: a request whose stripped model identifier is outside
`MODEL_NAMES` fails with the `UnknownModel` 400 error whose detail lists
the valid identifiers, for any text and language fields, before any
detection, language resolution or translation, and without touching the
cache. -/
theorem c5_unknown_model (env : Env) (req : TranslateRequest) (cache : Cache)
    (h : effectiveModelName req ∉ MODEL_NAMES) :
    (translate env req cache).result =
      .error (.unknownModel (unknownModelDetail (effectiveModelName req))) ∧
    (translate env req cache).trace.detectCalled = false ∧
    (translate env req cache).trace.invokedWith = none ∧
    (translate env req cache).cache = cache ∧
    ∀ n ∈ MODEL_NAMES, n ∈ SORTED_MODEL_NAMES := by
  have hg : get_model (effectiveModelName req) cache =
      .error (.unknownModel (unknownModelDetail (effectiveModelName req))) := by
    simp [get_model, h]
  refine ⟨?_, ?_, ?_, ?_, ?_⟩
  · simp [translate, hg]
  · simp [translate, hg]
  · simp [translate, hg]
  · simp [translate, hg]
  · decide

/-- C5 witness at a concrete unsupported identifier. -/
theorem c5_unknown_model_witness :
    effectiveModelName { text := "x", model := some "not-a-real-model" } ∉ MODEL_NAMES ∧
    (translate envDetEn { text := "x", model := some "not-a-real-model" } []).result =
      .error (.unknownModel
        (unknownModelDetail (effectiveModelName { text := "x", model := some "not-a-real-model" }))) :=
  ⟨by decide,
   (c5_unknown_model envDetEn { text := "x", model := some "not-a-real-model" } []
     (by decide)).1⟩

/-- C7: the registry holds at most one handle per identifier and never
evicts: for a valid identifier, a call with the identifier cached
returns the cached handle without loading and leaves the cache
unchanged; a call with it not cached performs one load and stores its
result; and in either case the key set grows only by the requested
identifier and stays inside `MODEL_NAMES` whenever it started there. -/
theorem c7_registry_cache_invariant (mid : String) (cache : Cache)
    (h : mid ∈ MODEL_NAMES) :
    (∀ m, cacheLookup mid cache = some m →
      get_model mid cache = .ok (m, cache, false)) ∧
    (cacheLookup mid cache = none →
      get_model mid cache =
        .ok ({ name := mid }, (mid, ({ name := mid } : ModelHandle)) :: cache, true)) ∧
    (∀ m c b, get_model mid cache = .ok (m, c, b) →
      (∀ k ∈ c.map Prod.fst, k = mid ∨ k ∈ cache.map Prod.fst) ∧
      ((∀ k ∈ cache.map Prod.fst, k ∈ MODEL_NAMES) →
        ∀ k ∈ c.map Prod.fst, k ∈ MODEL_NAMES)) := by
  refine ⟨?_, ?_, ?_⟩
  · intro m hm
    simp [get_model, h, hm]
  · intro hm
    simp [get_model, h, hm]
  · intro m c b hok
    cases hm : cacheLookup mid cache with
    | some cached =>
        rw [get_model, if_pos h, hm] at hok
        cases hok
        exact ⟨fun k hk => Or.inr hk, fun hsub k hk => hsub k hk⟩
    | none =>
        rw [get_model, if_pos h, hm] at hok
        cases hok
        constructor
        · intro k hk
          simp only [List.map_cons, List.mem_cons] at hk
          exact hk
        · intro hsub k hk
          simp only [List.map_cons, List.mem_cons] at hk
          cases hk with
          | inl hkeq => exact hkeq ▸ h
          | inr hkmem => exact hsub k hkmem

/-- C7 witness: a fresh load for the default model followed by the
cached-handle case. -/
theorem c7_registry_cache_invariant_witness :
    "m2m_100_418M" ∈ MODEL_NAMES ∧
    (cacheLookup "m2m_100_418M" [] = none →
      get_model "m2m_100_418M" [] =
        .ok ({ name := "m2m_100_418M" },
             ("m2m_100_418M", ({ name := "m2m_100_418M" } : ModelHandle)) :: [], true)) :=
  ⟨by decide, (c7_registry_cache_invariant "m2m_100_418M" [] (by decide)).2.1⟩

/-- Helper for C9: once the identifier is cached, every further call of
the burst returns the cached handle and performs no load. -/
theorem get_model_seq_cached (mid : String) (m : ModelHandle) (cache : Cache) (k : Nat)
    (h : mid ∈ MODEL_NAMES) (hc : cacheLookup mid cache = some m) :
    get_model_seq mid k cache = (List.replicate k (.ok m), cache, 0) := by
  induction k with
  | zero => simp [get_model_seq]
  | succ n ih => simp [get_model_seq, get_model, h, hc, ih, List.replicate_succ]

/-- C9: a burst of k+1 first-time calls for a valid, never-before-seen
identifier (serialized by the event loop, since `get_model` has no
suspension point) performs exactly one load, gives every caller the same
handle, and leaves exactly that handle cached for the identifier. -/
theorem c9_first_use_burst (mid : String) (cache : Cache) (k : Nat)
    (h : mid ∈ MODEL_NAMES) (h0 : cacheLookup mid cache = none) :
    (get_model_seq mid (k+1) cache).2.2 = 1 ∧
    (∀ r ∈ (get_model_seq mid (k+1) cache).1, r = .ok ({ name := mid } : ModelHandle)) ∧
    cacheLookup mid (get_model_seq mid (k+1) cache).2.1 =
      some ({ name := mid } : ModelHandle) := by
  have hg : get_model mid cache =
      .ok ({ name := mid }, (mid, ({ name := mid } : ModelHandle)) :: cache, true) := by
    simp [get_model, h, h0]
  have hc1 : cacheLookup mid ((mid, ({ name := mid } : ModelHandle)) :: cache) =
      some ({ name := mid } : ModelHandle) := by
    simp [cacheLookup]
  have hrest := get_model_seq_cached mid { name := mid }
    ((mid, ({ name := mid } : ModelHandle)) :: cache) k h hc1
  refine ⟨?_, ?_, ?_⟩
  · simp [get_model_seq, hg, hrest]
  · intro r hr
    simp [get_model_seq, hg, hrest] at hr
    rcases hr with hr | hr
    · exact hr
    · exact hr.2
  · simp [get_model_seq, hg, hrest, hc1]

/-- C9 witness: a burst of three first-time calls for the larger model. -/
theorem c9_first_use_burst_witness :
    "m2m_100_1.2B" ∈ MODEL_NAMES ∧ cacheLookup "m2m_100_1.2B" [] = none ∧
    (get_model_seq "m2m_100_1.2B" 3 []).2.2 = 1 :=
  ⟨by decide, by decide,
   (c9_first_use_burst "m2m_100_1.2B" [] 2 (by decide) (by decide)).1⟩

/-- C10: the handler loads the model before resolving languages, so for
a valid identifier not yet cached the load happens and the identifier is
cached afterwards for every outcome, passthrough included. -/
theorem c10_load_even_on_passthrough (env : Env) (req : TranslateRequest) (cache : Cache)
    (h1 : effectiveModelName req ∈ MODEL_NAMES)
    (h2 : cacheLookup (effectiveModelName req) cache = none) :
    (translate env req cache).trace.loadedModel = true ∧
    cacheLookup (effectiveModelName req) (translate env req cache).cache =
      some ({ name := effectiveModelName req } : ModelHandle) := by
  have hg : get_model (effectiveModelName req) cache =
      .ok ({ name := effectiveModelName req },
           (effectiveModelName req,
            ({ name := effectiveModelName req } : ModelHandle)) :: cache, true) := by
    simp [get_model, h1, h2]
  cases hr : resolveLanguages env req with
  | passthrough src dc w =>
      constructor <;> simp [translate, hg, hr, cacheLookup]
  | proceed src tgt dc w =>
      cases hm : env.model_out ({ name := effectiveModelName req } : ModelHandle).name
          req.text src tgt 1 with
      | ok out => constructor <;> simp [translate, hg, hr, hm, cacheLookup]
      | error e => constructor <;> simp [translate, hg, hr, hm, cacheLookup]

/-- C10 witness: a passthrough request still caches the default model. -/
theorem c10_load_even_on_passthrough_witness :
    effectiveModelName { text := "Hello world" } ∈ MODEL_NAMES ∧
    cacheLookup (effectiveModelName { text := "Hello world" }) [] = none ∧
    (translate envDetEn { text := "Hello world" } []).trace.loadedModel = true :=
  ⟨by decide, by decide,
   (c10_load_even_on_passthrough envDetEn { text := "Hello world" } [] (by decide) (by decide)).1⟩

/-- The only error `get_model` ever raises is the 400 with the
unknown-model detail for the requested identifier. -/
theorem get_model_error_shape (mid : String) (cache : Cache) (e : HTTPError)
    (h : get_model mid cache = .error e) :
    e = .unknownModel (unknownModelDetail mid) := by
  by_cases hm : mid ∈ MODEL_NAMES
  · cases hc : cacheLookup mid cache <;> simp [get_model, hm, hc] at h
  · simp [get_model, hm] at h
    exact h.symm

/-- C1: a request whose text resolves to source language English
(supplied alone, detected, or defaulted after detection failure) with no
target language returns the passthrough: the input text unchanged,
source and target both `"en"`, zero duration, identical timestamps, and
no model invocation. -/
theorem c1_english_passthrough (env : Env) (req : TranslateRequest) (cache : Cache)
    (h1 : effectiveModelName req ∈ MODEL_NAMES)
    (h2 : pyNormLower req.target_lang = none)
    (h3 : resolvedSource env req = "en") :
    (translate env req cache).trace.invokedWith = none ∧
    (translate env req cache).trace.modelError = none ∧
    ∃ envl, (translate env req cache).result = .ok envl ∧
      envl.translation = req.text ∧ envl.source_lang = "en" ∧ envl.target_lang = "en" ∧
      envl.duration_seconds = 0 ∧ envl.started_at = envl.finished_at := by
  obtain ⟨m, c1, dl, hg⟩ := get_model_valid (effectiveModelName req) cache h1
  have hres : ∃ dc w, resolveLanguages env req = .passthrough "en" dc w := by
    cases hsl : pyNormLower req.source_lang with
    | some s =>
        have hse : s = "en" := by simpa [resolvedSource, hsl] using h3
        subst hse
        refine ⟨false, false, ?_⟩
        rw [resolveLanguages_source_only env req "en" hsl h2]
        simp
    | none =>
        cases hd : env.det req.text with
        | failure => exact ⟨true, true, resolveLanguages_failed_no_target env req hsl h2 hd⟩
        | ok l =>
            have hle : (if l = "" then "en" else pyLower l) = "en" := by
              simpa [resolvedSource, hsl, hd, detectFallback] using h3
            refine ⟨true, false, ?_⟩
            rw [resolveLanguages_detected_no_target env req l hsl h2 hd, hle]
            simp [hle]
  obtain ⟨dc, w, hres⟩ := hres
  refine ⟨?_, ?_, ?_⟩
  · simp [translate, hg, hres]
  · simp [translate, hg, hres]
  · refine ⟨passthroughEnvelope env req "en", ?_, rfl, rfl, rfl, rfl, rfl⟩
    simp [translate, hg, hres, passthroughEnvelope]

/-- C1 witness: English-detected text, no languages supplied. -/
theorem c1_english_passthrough_witness :
    effectiveModelName { text := "Hello world" } ∈ MODEL_NAMES ∧
    pyNormLower (none : Option String) = none ∧
    resolvedSource envDetEn { text := "Hello world" } = "en" ∧
    ((translate envDetEn { text := "Hello world" } []).trace.invokedWith = none ∧
     (translate envDetEn { text := "Hello world" } []).trace.modelError = none ∧
     ∃ envl, (translate envDetEn { text := "Hello world" } []).result = .ok envl ∧
       envl.translation = "Hello world" ∧ envl.source_lang = "en" ∧
       envl.target_lang = "en" ∧ envl.duration_seconds = 0 ∧
       envl.started_at = envl.finished_at) :=
  ⟨by decide, rfl, by decide,
   c1_english_passthrough envDetEn { text := "Hello world" } [] (by decide) rfl (by decide)⟩

/-- C2: when both languages are supplied non-empty, no detection call is
made, the resolved pair is the supplied pair lowercased, and the request
proceeds to the model call (never passthrough), even for en to en. -/
theorem c2_explicit_languages (env : Env) (req : TranslateRequest) (cache : Cache)
    (s t : String)
    (h1 : effectiveModelName req ∈ MODEL_NAMES)
    (hs : req.source_lang = some s) (hs' : s ≠ "")
    (ht : req.target_lang = some t) (ht' : t ≠ "") :
    (translate env req cache).trace.detectCalled = false ∧
    (translate env req cache).trace.invokedWith = some (pyLower s, pyLower t) ∧
    ∀ envl, (translate env req cache).result = .ok envl →
      envl.source_lang = pyLower s ∧ envl.target_lang = pyLower t ∧ envl.note = none := by
  obtain ⟨m, c1, dl, hg⟩ := get_model_valid (effectiveModelName req) cache h1
  have hres := resolveLanguages_both_supplied env req s t hs hs' ht ht'
  cases hm : env.model_out m.name req.text (pyLower s) (pyLower t) 1 with
  | ok out =>
      refine ⟨by simp [translate, hg, hres, hm], by simp [translate, hg, hres, hm], ?_⟩
      intro envl he
      simp [translate, hg, hres, hm] at he
      subst he
      exact ⟨rfl, rfl, rfl⟩
  | error e =>
      refine ⟨by simp [translate, hg, hres, hm], by simp [translate, hg, hres, hm], ?_⟩
      intro envl he
      simp [translate, hg, hres, hm] at he

/-- C2 witness: explicit en to fr pair, uppercase to exercise the
lowercasing. -/
theorem c2_explicit_languages_witness :
    effectiveModelName { text := "Hi", source_lang := some "EN", target_lang := some "FR" }
      ∈ MODEL_NAMES ∧
    ((translate envDetEn
        { text := "Hi", source_lang := some "EN", target_lang := some "FR" } []).trace.detectCalled
      = false ∧
     (translate envDetEn
        { text := "Hi", source_lang := some "EN", target_lang := some "FR" } []).trace.invokedWith
      = some (pyLower "EN", pyLower "FR") ∧
     ∀ envl, (translate envDetEn
        { text := "Hi", source_lang := some "EN", target_lang := some "FR" } []).result = .ok envl →
       envl.source_lang = pyLower "EN" ∧ envl.target_lang = pyLower "FR" ∧ envl.note = none) :=
  ⟨by decide,
   c2_explicit_languages envDetEn
     { text := "Hi", source_lang := some "EN", target_lang := some "FR" } [] "EN" "FR"
     (by decide) rfl (by decide) rfl (by decide)⟩

/-- C3: when no source language is supplied and the detector raises, the
request is not failed: the warning is logged, the only caller-visible
error that can still occur is a translation failure, and processing
continues with the English fallback source. -/
theorem c3_detection_failure_recovered (env : Env) (req : TranslateRequest) (cache : Cache)
    (h1 : effectiveModelName req ∈ MODEL_NAMES)
    (hs : pyNormLower req.source_lang = none)
    (hd : env.det req.text = .failure) :
    (translate env req cache).trace.warnedDetectionFailed = true ∧
    (∀ e, (translate env req cache).result = .error e → ∃ d, e = .translationFailed d) ∧
    (∀ envl, (translate env req cache).result = .ok envl → envl.source_lang = "en") ∧
    (∀ p, (translate env req cache).trace.invokedWith = some p → p.1 = "en") := by
  obtain ⟨m, c1, dl, hg⟩ := get_model_valid (effectiveModelName req) cache h1
  cases htl : pyNormLower req.target_lang with
  | none =>
      have hres := resolveLanguages_failed_no_target env req hs htl hd
      refine ⟨by simp [translate, hg, hres], ?_, ?_, ?_⟩
      · intro e he
        simp [translate, hg, hres] at he
      · intro envl he
        simp [translate, hg, hres] at he
        subst he
        rfl
      · intro p hp
        simp [translate, hg, hres] at hp
  | some t =>
      have hres := resolveLanguages_failed_with_target env req t hs htl hd
      cases hm : env.model_out m.name req.text "en" t 1 with
      | ok out =>
          refine ⟨by simp [translate, hg, hres, hm], ?_, ?_, ?_⟩
          · intro e he
            simp [translate, hg, hres, hm] at he
          · intro envl he
            simp [translate, hg, hres, hm] at he
            subst he
            rfl
          · intro p hp
            simp [translate, hg, hres, hm] at hp
            subst hp
            rfl
      | error e0 =>
          refine ⟨by simp [translate, hg, hres, hm], ?_, ?_, ?_⟩
          · intro e he
            simp [translate, hg, hres, hm] at he
            subst he
            exact ⟨_, rfl⟩
          · intro envl he
            simp [translate, hg, hres, hm] at he
          · intro p hp
            simp [translate, hg, hres, hm] at hp
            subst hp
            rfl

/-- C3 witness: detector raises on symbol-only text, no source given. -/
theorem c3_detection_failure_recovered_witness :
    effectiveModelName { text := "???" } ∈ MODEL_NAMES ∧
    pyNormLower (none : Option String) = none ∧
    envDetFail.det "???" = .failure ∧
    (translate envDetFail { text := "???" } []).trace.warnedDetectionFailed = true :=
  ⟨by decide, rfl, rfl,
   (c3_detection_failure_recovered envDetFail { text := "???" } [] (by decide) rfl rfl).1⟩

/-- C4: with neither language supplied and the detector reporting a
non-English language, the resolved source is the detector output
lowercased, the target defaults to English, and the model is invoked
(no passthrough). -/
theorem c4_detected_non_english (env : Env) (req : TranslateRequest) (cache : Cache)
    (l : String)
    (h1 : effectiveModelName req ∈ MODEL_NAMES)
    (hs : pyNormLower req.source_lang = none)
    (ht : pyNormLower req.target_lang = none)
    (hd : env.det req.text = .ok l)
    (hl0 : l ≠ "") (hlne : pyLower l ≠ "en") :
    (translate env req cache).trace.detectCalled = true ∧
    (translate env req cache).trace.invokedWith = some (pyLower l, "en") ∧
    ∀ envl, (translate env req cache).result = .ok envl →
      envl.source_lang = pyLower l ∧ envl.target_lang = "en" := by
  obtain ⟨m, c1, dl, hg⟩ := get_model_valid (effectiveModelName req) cache h1
  have hres : resolveLanguages env req = .proceed (pyLower l) "en" true false := by
    rw [resolveLanguages_detected_no_target env req l hs ht hd]
    simp [hl0, hlne]
  cases hm : env.model_out m.name req.text (pyLower l) "en" 1 with
  | ok out =>
      refine ⟨by simp [translate, hg, hres, hm], by simp [translate, hg, hres, hm], ?_⟩
      intro envl he
      simp [translate, hg, hres, hm] at he
      subst he
      exact ⟨rfl, rfl⟩
  | error e =>
      refine ⟨by simp [translate, hg, hres, hm], by simp [translate, hg, hres, hm], ?_⟩
      intro envl he
      simp [translate, hg, hres, hm] at he

/-- C4 witness: French-detected text with no languages supplied. -/
theorem c4_detected_non_english_witness :
    effectiveModelName { text := "Bonjour le monde" } ∈ MODEL_NAMES ∧
    envDetFr.det "Bonjour le monde" = .ok "fr" ∧
    ((translate envDetFr { text := "Bonjour le monde" } []).trace.detectCalled = true ∧
     (translate envDetFr { text := "Bonjour le monde" } []).trace.invokedWith
       = some (pyLower "fr", "en") ∧
     ∀ envl, (translate envDetFr { text := "Bonjour le monde" } []).result = .ok envl →
       envl.source_lang = pyLower "fr" ∧ envl.target_lang = "en") :=
  ⟨by decide, rfl,
   c4_detected_non_english envDetFr { text := "Bonjour le monde" } [] "fr"
     (by decide) rfl rfl rfl (by decide) (by decide)⟩

/-- C6: every request ends in exactly one of success, `UnknownModel` or
`TranslationFailed`; a raised model exception is wrapped into the single
500 outcome carrying the original cause and never escapes raw. -/
theorem c6_outcome_trichotomy (env : Env) (req : TranslateRequest) (cache : Cache) :
    ((∃ envl, (translate env req cache).result = .ok envl) ∨
     (∃ d, (translate env req cache).result = .error (.unknownModel d)) ∨
     (∃ d, (translate env req cache).result = .error (.translationFailed d))) ∧
    (∀ msg, (translate env req cache).trace.modelError = some msg →
      (translate env req cache).result =
        .error (.translationFailed ("Translation failed: " ++ msg))) := by
  cases hg : get_model (effectiveModelName req) cache with
  | error e =>
      have hshape := get_model_error_shape (effectiveModelName req) cache e hg
      subst hshape
      constructor
      · exact Or.inr (Or.inl ⟨unknownModelDetail (effectiveModelName req),
          by simp [translate, hg]⟩)
      · intro msg hmsg
        simp [translate, hg] at hmsg
  | ok trip =>
      obtain ⟨m, c1, dl⟩ := trip
      cases hres : resolveLanguages env req with
      | passthrough src dc w =>
          constructor
          · refine Or.inl ⟨passthroughEnvelope env req src, ?_⟩
            simp [translate, hg, hres, passthroughEnvelope]
          · intro msg hmsg
            simp [translate, hg, hres] at hmsg
      | proceed src tgt dc w =>
          cases hm : env.model_out m.name req.text src tgt 1 with
          | ok out =>
              constructor
              · refine Or.inl ⟨translatedEnvelope env req out src tgt, ?_⟩
                simp [translate, hg, hres, hm, translatedEnvelope]
              · intro msg hmsg
                simp [translate, hg, hres, hm] at hmsg
          | error e0 =>
              constructor
              · exact Or.inr (Or.inr ⟨"Translation failed: " ++ e0,
                  by simp [translate, hg, hres, hm]⟩)
              · intro msg hmsg
                simp [translate, hg, hres, hm] at hmsg
                subst hmsg
                simp [translate, hg, hres, hm]

/-- C6 witness: instantiation at a failing model call. -/
theorem c6_outcome_trichotomy_witness :
    ((∃ envl, (translate envModelBoom
        { text := "Hi", source_lang := some "en", target_lang := some "fr" } []).result
        = .ok envl) ∨
     (∃ d, (translate envModelBoom
        { text := "Hi", source_lang := some "en", target_lang := some "fr" } []).result
        = .error (.unknownModel d)) ∨
     (∃ d, (translate envModelBoom
        { text := "Hi", source_lang := some "en", target_lang := some "fr" } []).result
        = .error (.translationFailed d))) ∧
    (∀ msg, (translate envModelBoom
        { text := "Hi", source_lang := some "en", target_lang := some "fr" } []).trace.modelError
        = some msg →
      (translate envModelBoom
        { text := "Hi", source_lang := some "en", target_lang := some "fr" } []).result
        = .error (.translationFailed ("Translation failed: " ++ msg))) :=
  c6_outcome_trichotomy envModelBoom
    { text := "Hi", source_lang := some "en", target_lang := some "fr" } []

/-- C8: refuted on the code. The passthrough path stamps its timestamps
with the naive local clock (`datetime.now()` with no timezone), while
the translated path stamps UTC (`datetime.now(timezone.utc)`), so the
two response paths do not share a single consistent clock/timezone
representation. Shown at concrete inputs exercising both paths. -/
theorem c8_clock_mismatch_between_paths :
    (∃ envl, (translate envDetEn { text := "Hello world" } []).result = .ok envl ∧
      envl.started_at.clock = Clock.localNaive ∧
      envl.finished_at.clock = Clock.localNaive) ∧
    (∃ envl, (translate envDetFr { text := "Bonjour le monde" } []).result = .ok envl ∧
      envl.started_at.clock = Clock.utc ∧
      envl.finished_at.clock = Clock.utc) ∧
    Clock.localNaive ≠ Clock.utc :=
  ⟨⟨_, rfl, rfl, rfl⟩, ⟨_, rfl, rfl, rfl⟩, by decide⟩

end CustomTranslate
